import Mathlib

/-!
Shallow embedding of the health-check engine of `src/app.py` (AernHome
dashboard): the probe drivers (`check_http_health`, `check_docker_health`),
the per-service evaluator (`check_service_health`), the history store
(`save_health_check`) and the summary endpoint (`api_health`), together
with the seeding loop of `init_db`.

Modelling conventions:
  - HTTP / Docker side effects are captured by environment values
    (`HttpResponse`, `DockerEnv`) describing what the outside world answers;
    the probe functions are the pure mapping the Python code applies to
    those answers.
  - SQLite tables are lists of records kept in insertion order; timestamps
    are seconds since the epoch as natural numbers.  `ORDER BY checked_at
    ASC` is modelled by a stable insertion sort on the timestamp.
  - Python truthiness of optional TEXT columns (`service["url"]`) is
    `truthy`: false exactly for NULL and the empty string.
-/

/-- Status strings used by the app: "up", "down", "degraded", "unknown". -/
inductive Status where
  | up
  | down
  | degraded
  | unknown
deriving DecidableEq, Repr

/-- The (status, response_time_ms, error_message) triple the checkers build. -/
structure HealthResult where
  status : Status
  response_time_ms : Option Nat
  error_message : Option String
deriving DecidableEq, Repr

/-- Outcome of the `requests.get` call in `check_http_health`:
either a response with a status code (and the measured elapsed time in ms),
or one of the exception classes the code catches. -/
inductive HttpResponse where
  | ok (status_code : Nat) (elapsed_ms : Nat)
  | timeout
  | connectionError
  | otherError (msg : String)
deriving DecidableEq, Repr

/-- `HTTP_TIMEOUT = 5` seconds (src/app.py line 30). -/
def HTTP_TIMEOUT : Nat := 5

/-- `check_http_health` (src/app.py lines 194-214): maps the outcome of the
GET request to a (status, response_time_ms, error_message) triple. -/
def check_http_health : HttpResponse → HealthResult
  | .ok code t =>
      if code = 200 ∨ code = 302 then
        ⟨Status.up, some t, none⟩
      else
        ⟨Status.down, some t, some ("HTTP " ++ toString code)⟩
  | .timeout => ⟨Status.down, some (HTTP_TIMEOUT * 1000), some "Timeout"⟩
  | .connectionError => ⟨Status.down, none, some "Connection refused"⟩
  | .otherError msg => ⟨Status.down, none, some msg⟩

/-- Outcome of the Docker lookup in `check_docker_health`: the docker
library may be missing (`DOCKER_AVAILABLE = False`), the container may be
found with some status string, be absent, or the lookup may fail. -/
inductive DockerEnv where
  | unavailable
  | containerStatus (s : String)
  | notFound
  | failure (msg : String)
deriving DecidableEq, Repr

/-- `check_docker_health` (src/app.py lines 217-236): returns the
(status, error_message) pair for a container lookup outcome. -/
def check_docker_health : DockerEnv → Status × Option String
  | .unavailable => (Status.unknown, some "Docker library not available")
  | .containerStatus s =>
      if s = "running" then (Status.up, none)
      else (Status.down, some ("Container status: " ++ s))
  | .notFound => (Status.down, some "Container not found")
  | .failure msg => (Status.down, some msg)

/-- One row of the `services` table (src/app.py lines 135-147). -/
structure ServiceRow where
  id : Nat
  name : String
  display_name : String
  url : Option String
  check_type : String
  docker_container : Option String
  icon_emoji : Option String
  enabled : Nat
deriving DecidableEq, Repr

/-- Python truthiness of an optional TEXT column: NULL and "" are falsy. -/
def truthy : Option String → Prop
  | none => False
  | some s => s ≠ ""

instance (o : Option String) : Decidable (truthy o) := by
  cases o <;> simp [truthy] <;> infer_instance

/-- The state of `result` in `check_service_health` after the HTTP branch
(src/app.py lines 244-253): the HTTP checker's triple when the check type is
"http" or "both" and a url is present, else the initial unknown triple. -/
def http_phase (service : ServiceRow) (he : HttpResponse) : HealthResult :=
  if (service.check_type = "http" ∨ service.check_type = "both") ∧ truthy service.url then
    check_http_health he
  else
    ⟨Status.unknown, none, none⟩

/-- Whether the Docker branch of `check_service_health` actually calls
`check_docker_health` (src/app.py lines 256-257): guards of the two nested
ifs around the call. -/
def docker_invoked (service : ServiceRow) (he : HttpResponse) : Prop :=
  ((service.check_type = "docker" ∨ service.check_type = "both") ∧ truthy service.docker_container)
    ∧ (service.check_type = "docker" ∨ (http_phase service he).status = Status.up)

instance (service : ServiceRow) (he : HttpResponse) : Decidable (docker_invoked service he) := by
  unfold docker_invoked; infer_instance

/-- `check_service_health` (src/app.py lines 239-269): combine the HTTP and
Docker checks according to the service's `check_type`. -/
def check_service_health (service : ServiceRow) (he : HttpResponse) (de : DockerEnv) :
    HealthResult :=
  let result := http_phase service he
  if (service.check_type = "docker" ∨ service.check_type = "both") ∧ truthy service.docker_container then
    if service.check_type = "docker" ∨ result.status = Status.up then
      let d := check_docker_health de
      if service.check_type = "docker" then
        ⟨d.1, result.response_time_ms, d.2⟩
      else if d.1 ≠ Status.up then
        ⟨Status.degraded, result.response_time_ms, d.2⟩
      else
        result
    else
      result
  else
    result

/-- One row of the `health_checks` table (src/app.py lines 150-160);
`checked_at` is seconds since the epoch. -/
structure HealthCheckRecord where
  service_id : Nat
  status : Status
  response_time_ms : Option Nat
  error_message : Option String
  checked_at : Nat
deriving DecidableEq, Repr

/-- 7 days in seconds: the retention horizon of the pruning DELETE. -/
def RETENTION_SECONDS : Nat := 7 * 86400

/-- `save_health_check` (src/app.py lines 272-288): INSERT one record with
the current timestamp, then DELETE every record (any service) with
`checked_at < datetime(now, '-7 days')`, i.e. keep a record exactly when
`now ≤ checked_at + 7 days`. -/
def save_health_check (store : List HealthCheckRecord) (service_id : Nat) (status : Status)
    (response_time_ms : Option Nat) (error_message : Option String) (now : Nat) :
    List HealthCheckRecord :=
  (store ++ [(⟨service_id, status, response_time_ms, error_message, now⟩ : HealthCheckRecord)]).filter
    (fun r => decide (now ≤ r.checked_at + RETENTION_SECONDS))

/-- Insert a record into a list sorted by `checked_at` (stable: an equal
timestamp keeps the inserted record first). -/
def insertByTime (r : HealthCheckRecord) : List HealthCheckRecord → List HealthCheckRecord
  | [] => [r]
  | x :: xs =>
      if x.checked_at < r.checked_at then x :: insertByTime r xs
      else r :: x :: xs

/-- Stable insertion sort by `checked_at`, modelling `ORDER BY checked_at ASC`. -/
def sortByTime : List HealthCheckRecord → List HealthCheckRecord
  | [] => []
  | x :: xs => insertByTime x (sortByTime xs)

/-- Append to a Python-dict-of-lists keyed by service id, as the grouping
loop in `api_health` does (src/app.py lines 567-572): a missing key gets a
fresh singleton list at the end, an existing key appends in place. -/
def dictAppend (d : List (Nat × List Bool)) (sid : Nat) (b : Bool) : List (Nat × List Bool) :=
  match d with
  | [] => [(sid, [b])]
  | (k, v) :: rest =>
      if k = sid then (k, v ++ [b]) :: rest
      else (k, v) :: dictAppend rest sid b

/-- `sparklines.get(service_id, [])`: dict lookup with empty-list default. -/
def dict_get (d : List (Nat × List Bool)) (sid : Nat) : List Bool :=
  match d with
  | [] => []
  | (k, v) :: rest => if k = sid then v else dict_get rest sid

/-- One entry of the static `DEFAULT_SERVICES` catalog (src/app.py
lines 33-124). -/
structure CatalogEntry where
  name : String
  display_name : String
  url : Option String
  public_url : Option String
  check_type : String
  docker_container : Option String
  icon_emoji : Option String
  enabled : Nat
deriving DecidableEq, Repr

/-- One element of the JSON array `api_health` returns (src/app.py
lines 593-606). -/
structure ResultEntry where
  id : Nat
  name : String
  display_name : String
  url : Option String
  public_url : Option String
  icon_emoji : Option String
  status : Status
  response_time_ms : Option Nat
  error_message : Option String
  sparkline : List Bool
deriving DecidableEq, Repr

/-- The per-service loop of `api_health` (src/app.py lines 574-606):
evaluate health, persist it via `save_health_check`, resolve `public_url`
by the first name match in the catalog, and emit the result entry whose
sparkline is the pre-fetched group for this service id.  `env` gives the
HTTP and Docker world answers for each service. -/
def api_health_loop (env : ServiceRow → HttpResponse × DockerEnv) (catalog : List CatalogEntry)
    (sparklines : List (Nat × List Bool)) (now : Nat) :
    List ServiceRow → List HealthCheckRecord → List ResultEntry × List HealthCheckRecord
  | [], store => ([], store)
  | s :: rest, store =>
      let health := check_service_health s (env s).1 (env s).2
      let store1 := save_health_check store s.id health.status health.response_time_ms
        health.error_message now
      let public_url := match catalog.find? (fun e => decide (e.name = s.name)) with
        | some e => e.public_url
        | none => none
      let entry : ResultEntry :=
        ⟨s.id, s.name, s.display_name, s.url, public_url, s.icon_emoji,
          health.status, health.response_time_ms, health.error_message,
          dict_get sparklines s.id⟩
      let rest2 := api_health_loop env catalog sparklines now rest store1
      (entry :: rest2.1, rest2.2)

/-- 24 hours in seconds: the sparkline window of `api_health`. -/
def SPARKLINE_WINDOW_SECONDS : Nat := 86400

/-- `api_health` (src/app.py lines 545-608): select the enabled services,
fetch the last 24 h of health checks ordered by `checked_at` ascending,
group them by service id into boolean (status = up) lists, then run the
per-service loop.  Returns the JSON list and the final history store. -/
def api_health (services : List ServiceRow) (env : ServiceRow → HttpResponse × DockerEnv)
    (catalog : List CatalogEntry) (store : List HealthCheckRecord) (now : Nat) :
    List ResultEntry × List HealthCheckRecord :=
  let enabled := services.filter (fun s => decide (s.enabled = 1))
  let sparkline_rows := sortByTime (store.filter
    (fun r => decide (now ≤ r.checked_at + SPARKLINE_WINDOW_SECONDS)))
  let sparklines := sparkline_rows.foldl
    (fun d r => dictAppend d r.service_id (decide (r.status = Status.up))) []
  api_health_loop env catalog sparklines now enabled store

/-- The row inserted for a catalog entry by the seeding loop of `init_db`
(src/app.py lines 162-180); `public_url` is not stored.  The AUTOINCREMENT
id is modelled as one past the current row count. -/
def rowOf (e : CatalogEntry) (id : Nat) : ServiceRow :=
  ⟨id, e.name, e.display_name, e.url, e.check_type, e.docker_container, e.icon_emoji, e.enabled⟩

/-- The seeding loop of `init_db` (src/app.py lines 162-180): for each
catalog entry in order, insert it only when no row with its name exists. -/
def seed (rows : List ServiceRow) : List CatalogEntry → List ServiceRow
  | [] => rows
  | e :: rest =>
      if _h : ∃ r ∈ rows, r.name = e.name then
        seed rows rest
      else
        seed (rows ++ [rowOf e (rows.length + 1)]) rest

/-! Concrete inputs used by witness theorems. -/

/-- A `both`-mode service with url and container (witness input). -/
def wBoth : ServiceRow :=
  ⟨1, "n8n", "n8n Workflows", some "https://n8n.example:5678", "both", some "n8n", none, 1⟩

/-- A `both`-mode service with a container but no url (witness input). -/
def wBothNoUrl : ServiceRow :=
  ⟨2, "discord-relay", "Discord Relay", none, "both", some "claude-relay", none, 1⟩

/-- An `http`-mode service (witness input). -/
def wHttp : ServiceRow :=
  ⟨3, "jellyfin", "Jellyfin Media", some "http://jellyfin.example:8096", "http", some "jellyfin", none, 1⟩

/-- A history store with an up, down, up sequence for service 3 (witness input). -/
def w8Store : List HealthCheckRecord :=
  [⟨3, Status.up, some 10, none, 999000⟩,
   ⟨3, Status.down, none, some "HTTP 500", 999100⟩,
   ⟨3, Status.up, some 12, none, 999200⟩]

/-- An environment in which every HTTP probe answers 200 and every container
is running (witness input). -/
def wEnvUp : ServiceRow → HttpResponse × DockerEnv :=
  fun _ => (HttpResponse.ok 200 42, DockerEnv.containerStatus "running")

/-- A two-entry catalog (witness input). -/
def w9Catalog : List CatalogEntry :=
  [⟨"n8n", "n8n Workflows", some "https://n8n.example:5678", some "https://n8n.example:5678", "both", some "n8n", none, 1⟩,
   ⟨"cloudflared", "Cloudflare Tunnel", none, none, "docker", some "cloudflared-tunnel", none, 1⟩]

/-! Helper lemmas. -/

/-- An up verdict of the HTTP checker never carries an error message. -/
theorem check_http_health_up_err (he : HttpResponse)
    (h : (check_http_health he).status = Status.up) :
    (check_http_health he).error_message = none := by
  cases he with
  | ok code t =>
      simp only [check_http_health] at h ⊢
      split_ifs at h ⊢ with hc
      rfl
  | timeout => exact Status.noConfusion h
  | connectionError => exact Status.noConfusion h
  | otherError m => exact Status.noConfusion h

/-- An up verdict of the Docker checker never carries an error message. -/
theorem check_docker_health_up_err (de : DockerEnv)
    (h : (check_docker_health de).1 = Status.up) :
    (check_docker_health de).2 = none := by
  cases de with
  | unavailable => exact Status.noConfusion h
  | containerStatus s =>
      simp only [check_docker_health] at h ⊢
      split_ifs at h ⊢ with hc
      rfl
  | notFound => exact Status.noConfusion h
  | failure m => exact Status.noConfusion h

/-- After the HTTP branch, an up status implies no error message. -/
theorem http_phase_up_err (svc : ServiceRow) (he : HttpResponse)
    (h : (http_phase svc he).status = Status.up) :
    (http_phase svc he).error_message = none := by
  unfold http_phase at h ⊢
  split_ifs at h ⊢ with hc
  exact check_http_health_up_err he h

/-- For a `both`-mode service with a url, the Docker branch is not entered
when the HTTP result is not up. -/
theorem docker_not_invoked_of_http_not_up (svc : ServiceRow) (he : HttpResponse)
    (h1 : svc.check_type = "both") (h2 : truthy svc.url)
    (h3 : (check_http_health he).status ≠ Status.up) :
    ¬ docker_invoked svc he := by
  have hne : svc.check_type ≠ "docker" := by rw [h1]; decide
  have hphase : http_phase svc he = check_http_health he := by
    rw [http_phase, if_pos ⟨Or.inr h1, h2⟩]
  intro hinv
  exact h3 (hphase ▸ hinv.2.resolve_left hne)

/-! Claim theorems. -/

/-- Claim C5: the network probe maps response code 200 or 302 to status up
with the measured latency; any other code to down with the latency recorded
and error "HTTP {code}"; a timeout to down with latency 5000 ms and error
"Timeout"; a refused connection to down with no latency and error
"Connection refused". -/
theorem claim_C5 (code t : Nat) :
    ((code = 200 ∨ code = 302) →
      check_http_health (HttpResponse.ok code t) = ⟨Status.up, some t, none⟩) ∧
    (¬ (code = 200 ∨ code = 302) →
      check_http_health (HttpResponse.ok code t)
        = ⟨Status.down, some t, some ("HTTP " ++ toString code)⟩) ∧
    check_http_health HttpResponse.timeout = ⟨Status.down, some 5000, some "Timeout"⟩ ∧
    check_http_health HttpResponse.connectionError
      = ⟨Status.down, none, some "Connection refused"⟩ := by
  refine ⟨fun h => ?_, fun h => ?_, rfl, rfl⟩
  · simp only [check_http_health, if_pos h]
  · simp only [check_http_health, if_neg h]

/-- Witness for C5 at codes 200, 404 and the two exception outcomes. -/
theorem claim_C5_witness :
    check_http_health (HttpResponse.ok 200 5) = ⟨Status.up, some 5, none⟩ ∧
    check_http_health (HttpResponse.ok 404 7)
      = ⟨Status.down, some 7, some ("HTTP " ++ toString 404)⟩ :=
  ⟨(claim_C5 200 5).1 (Or.inl rfl), (claim_C5 404 7).2.1 (by decide)⟩

/-- Claim C6, as stated, is false: when the docker library is unavailable
the probe's error string is "Docker library not available", not
"backend not available". -/
theorem claim_C6_counterexample :
    (check_docker_health DockerEnv.unavailable).2 ≠ some "backend not available" := by
  decide

/-- Claim C6 (amended): when the docker library is unavailable the process
probe returns status unknown with error "Docker library not available"
(a total function: it cannot raise). -/
theorem claim_C6 :
    check_docker_health DockerEnv.unavailable
      = (Status.unknown, some "Docker library not available") := rfl

/-- Claim C10: whatever the service configuration and whatever the HTTP and
Docker worlds answer, a combined verdict with status up carries no error
message. -/
theorem claim_C10 (svc : ServiceRow) (he : HttpResponse) (de : DockerEnv)
    (h : (check_service_health svc he de).status = Status.up) :
    (check_service_health svc he de).error_message = none := by
  simp only [check_service_health] at h ⊢
  split_ifs at h ⊢ with hc hd hdk hup
  · exact check_docker_health_up_err de h
  · exact http_phase_up_err svc he h
  · exact http_phase_up_err svc he h
  · exact http_phase_up_err svc he h

/-- Witness for C10: an http-mode service whose endpoint answers 200. -/
theorem claim_C10_witness :
    (check_service_health wHttp (HttpResponse.ok 200 42) DockerEnv.unavailable).status
        = Status.up ∧
    (check_service_health wHttp (HttpResponse.ok 200 42) DockerEnv.unavailable).error_message
        = none :=
  ⟨by decide, claim_C10 wHttp (HttpResponse.ok 200 42) DockerEnv.unavailable (by decide)⟩

/-- Claim C1: for a `both`-mode service (with a url) whose network probe is
not up, the combined result is the network probe's triple verbatim and the
process probe is not invoked. -/
theorem claim_C1 (svc : ServiceRow) (he : HttpResponse) (de : DockerEnv)
    (h1 : svc.check_type = "both") (h2 : truthy svc.url)
    (h3 : (check_http_health he).status ≠ Status.up) :
    check_service_health svc he de = check_http_health he ∧ ¬ docker_invoked svc he := by
  have hne : svc.check_type ≠ "docker" := by rw [h1]; decide
  have hphase : http_phase svc he = check_http_health he := by
    rw [http_phase, if_pos ⟨Or.inr h1, h2⟩]
  refine ⟨?_, docker_not_invoked_of_http_not_up svc he h1 h2 h3⟩
  simp only [check_service_health, hphase]
  by_cases hc : (svc.check_type = "docker" ∨ svc.check_type = "both") ∧ truthy svc.docker_container
  · rw [if_pos hc, if_neg (fun hor => h3 (hor.resolve_left hne))]
  · rw [if_neg hc]

/-- Witness for C1: a `both`-mode service whose HTTP probe times out. -/
theorem claim_C1_witness :
    check_service_health wBoth HttpResponse.timeout (DockerEnv.containerStatus "running")
        = check_http_health HttpResponse.timeout ∧
    ¬ docker_invoked wBoth HttpResponse.timeout :=
  claim_C1 wBoth HttpResponse.timeout (DockerEnv.containerStatus "running")
    rfl (by decide) (by decide)

/-- Claim C2: for a `both`-mode service (url and container present) whose
network probe is up: a process probe that is also up gives a combined up
verdict with the network probe's latency and no error; a process probe that
is anything else gives status degraded with the process probe's error and
the network probe's latency. -/
theorem claim_C2 (svc : ServiceRow) (he : HttpResponse) (de : DockerEnv)
    (h1 : svc.check_type = "both") (h2 : truthy svc.url) (h3 : truthy svc.docker_container)
    (h4 : (check_http_health he).status = Status.up) :
    ((check_docker_health de).1 = Status.up →
      check_service_health svc he de
        = ⟨Status.up, (check_http_health he).response_time_ms, none⟩) ∧
    ((check_docker_health de).1 ≠ Status.up →
      check_service_health svc he de
        = ⟨Status.degraded, (check_http_health he).response_time_ms,
            (check_docker_health de).2⟩) := by
  have hne : svc.check_type ≠ "docker" := by rw [h1]; decide
  have hphase : http_phase svc he = check_http_health he := by
    rw [http_phase, if_pos ⟨Or.inr h1, h2⟩]
  have hrepr : check_http_health he
      = ⟨Status.up, (check_http_health he).response_time_ms, none⟩ := by
    have herr := check_http_health_up_err he h4
    have : check_http_health he
        = ⟨(check_http_health he).status, (check_http_health he).response_time_ms,
            (check_http_health he).error_message⟩ := rfl
    rw [h4, herr] at this
    exact this
  constructor
  · intro hup
    simp only [check_service_health, hphase]
    rw [if_pos ⟨Or.inr h1, h3⟩, if_pos (Or.inr h4), if_neg hne,
      if_neg (by simpa using hup)]
    exact hrepr
  · intro hdown
    simp only [check_service_health, hphase]
    rw [if_pos ⟨Or.inr h1, h3⟩, if_pos (Or.inr h4), if_neg hne, if_pos hdown]

/-- Witness for C2: a `both`-mode service with HTTP 200 and a running
container, and the same service with the container exited. -/
theorem claim_C2_witness :
    check_service_health wBoth (HttpResponse.ok 200 42) (DockerEnv.containerStatus "running")
        = ⟨Status.up, (check_http_health (HttpResponse.ok 200 42)).response_time_ms, none⟩ ∧
    check_service_health wBoth (HttpResponse.ok 200 42) (DockerEnv.containerStatus "exited")
        = ⟨Status.degraded, (check_http_health (HttpResponse.ok 200 42)).response_time_ms,
            (check_docker_health (DockerEnv.containerStatus "exited")).2⟩ :=
  ⟨(claim_C2 wBoth (HttpResponse.ok 200 42) (DockerEnv.containerStatus "running")
      rfl (by decide) (by decide) (by decide)).1 (by decide),
   (claim_C2 wBoth (HttpResponse.ok 200 42) (DockerEnv.containerStatus "exited")
      rfl (by decide) (by decide) (by decide)).2 (by decide)⟩

/-- Claim C4, as stated, is false: a `both`-mode service with no endpoint
but with a process identifier is not evaluated by the process probe; the
probe is never invoked and the result stays unknown even though the
container is running. -/
theorem claim_C4_counterexample :
    check_service_health wBothNoUrl (HttpResponse.ok 200 42) (DockerEnv.containerStatus "running")
        = ⟨Status.unknown, none, none⟩ ∧
    check_docker_health (DockerEnv.containerStatus "running") = (Status.up, none) ∧
    ¬ docker_invoked wBothNoUrl (HttpResponse.ok 200 42) := by
  refine ⟨rfl, rfl, by decide⟩

/-- Claim C4 (amended): a `both`-mode service lacking the process identifier
runs only the network probe and the result is that probe's outcome; a
`both`-mode service lacking the network endpoint runs neither probe — the
process probe is not invoked and the result is status unknown with no
latency and no error. -/
theorem claim_C4 (svc : ServiceRow) (he : HttpResponse) (de : DockerEnv)
    (h1 : svc.check_type = "both") :
    (truthy svc.url → ¬ truthy svc.docker_container →
      check_service_health svc he de = check_http_health he ∧ ¬ docker_invoked svc he) ∧
    (¬ truthy svc.url →
      check_service_health svc he de = ⟨Status.unknown, none, none⟩
        ∧ ¬ docker_invoked svc he) := by
  have hne : svc.check_type ≠ "docker" := by rw [h1]; decide
  constructor
  · intro hu hnc
    have hphase : http_phase svc he = check_http_health he := by
      rw [http_phase, if_pos ⟨Or.inr h1, hu⟩]
    constructor
    · simp only [check_service_health, hphase]
      rw [if_neg (fun hcc => hnc hcc.2)]
    · exact fun hinv => hnc hinv.1.2
  · intro hnu
    have hphase : http_phase svc he = ⟨Status.unknown, none, none⟩ := by
      rw [http_phase, if_neg (fun hh => hnu hh.2)]
    constructor
    · simp only [check_service_health, hphase]
      by_cases hc : (svc.check_type = "docker" ∨ svc.check_type = "both") ∧ truthy svc.docker_container
      · rw [if_pos hc, if_neg (fun hor => Status.noConfusion (hor.resolve_left hne))]
      · rw [if_neg hc]
    · intro hinv
      have := hinv.2.resolve_left hne
      rw [hphase] at this
      exact Status.noConfusion this

/-- Witness for C4: a `both`-mode service with url and no container, and a
`both`-mode service with container and no url. -/
theorem claim_C4_witness :
    (check_service_health ⟨9, "ha", "Home Assistant", some "http://ha.example:8123", "both", none, none, 1⟩
        HttpResponse.timeout DockerEnv.unavailable
        = check_http_health HttpResponse.timeout ∧
      ¬ docker_invoked ⟨9, "ha", "Home Assistant", some "http://ha.example:8123", "both", none, none, 1⟩
        HttpResponse.timeout) ∧
    (check_service_health wBothNoUrl HttpResponse.timeout DockerEnv.unavailable
        = ⟨Status.unknown, none, none⟩ ∧
      ¬ docker_invoked wBothNoUrl HttpResponse.timeout) :=
  ⟨(claim_C4 ⟨9, "ha", "Home Assistant", some "http://ha.example:8123", "both", none, none, 1⟩
      HttpResponse.timeout DockerEnv.unavailable rfl).1 (by decide) (by decide),
   (claim_C4 wBothNoUrl HttpResponse.timeout DockerEnv.unavailable rfl).2 (by decide)⟩

/-- Claim C7: an append writes the new record into the store, and deletes
every record across all services older than the 7-day retention horizon:
every surviving record satisfies now ≤ checked_at + 7 days.  In particular
a record whose timestamp is 8 days old does not survive, hence is absent
from every subsequent window query over the store. -/
theorem claim_C7 (store : List HealthCheckRecord) (sid : Nat) (st : Status)
    (rt : Option Nat) (err : Option String) (now : Nat) :
    ((⟨sid, st, rt, err, now⟩ : HealthCheckRecord)
        ∈ save_health_check store sid st rt err now) ∧
    (∀ r ∈ save_health_check store sid st rt err now,
      now ≤ r.checked_at + 7 * 86400) ∧
    (∀ r ∈ save_health_check store sid st rt err now,
      ¬ (r.checked_at + 8 * 86400 ≤ now)) := by
  have hkept : ∀ r ∈ save_health_check store sid st rt err now,
      now ≤ r.checked_at + 7 * 86400 := by
    intro r hr
    have hkeep := (List.mem_filter.mp hr).2
    have hle : now ≤ r.checked_at + RETENTION_SECONDS := by simpa using hkeep
    simpa [RETENTION_SECONDS] using hle
  refine ⟨?_, hkept, ?_⟩
  · apply List.mem_filter.mpr
    refine ⟨List.mem_append_right _ (List.mem_singleton.mpr rfl), ?_⟩
    simp [RETENTION_SECONDS]
  · intro r hr hold
    have := hkept r hr
    omega

/-- Witness for C7: appending to a store holding one 7.5-day-old record
keeps the new record and drops the old one — the 7-day horizon, not an
8-day one, decides survival (7.5 days = 648000 s). -/
theorem claim_C7_witness :
    ((⟨1, Status.up, some 5, none, 648000⟩ : HealthCheckRecord)
        ∈ save_health_check [⟨1, Status.down, none, none, 0⟩] 1 Status.up (some 5) none 648000) ∧
    ¬ ((⟨1, Status.down, none, none, 0⟩ : HealthCheckRecord)
        ∈ save_health_check [⟨1, Status.down, none, none, 0⟩] 1 Status.up (some 5) none 648000) :=
  ⟨(claim_C7 [⟨1, Status.down, none, none, 0⟩] 1 Status.up (some 5) none 648000).1,
   fun hmem =>
     absurd
       ((claim_C7 [⟨1, Status.down, none, none, 0⟩] 1 Status.up (some 5) none 648000).2.1
         ⟨1, Status.down, none, none, 0⟩ hmem)
       (by decide)⟩

/-! Dict-grouping and sorting lemmas for the `api_health` sparklines. -/

/-- Appending under a key extends exactly that key's list. -/
theorem dict_get_dictAppend_same (d : List (Nat × List Bool)) (sid : Nat) (b : Bool) :
    dict_get (dictAppend d sid b) sid = dict_get d sid ++ [b] := by
  induction d with
  | nil => simp [dictAppend, dict_get]
  | cons kv rest ih =>
      obtain ⟨k, v⟩ := kv
      by_cases h : k = sid <;> simp [dictAppend, dict_get, h, ih]

/-- Appending under one key leaves every other key's list unchanged. -/
theorem dict_get_dictAppend_ne (d : List (Nat × List Bool)) (k sid : Nat) (b : Bool)
    (h : k ≠ sid) : dict_get (dictAppend d k b) sid = dict_get d sid := by
  induction d with
  | nil => simp [dictAppend, dict_get, h]
  | cons kv rest ih =>
      obtain ⟨k', v⟩ := kv
      by_cases h1 : k' = k
      · subst h1
        simp [dictAppend, dict_get, h]
      · by_cases h2 : k' = sid
        · subst h2
          simp [dictAppend, dict_get, h1]
        · simp [dictAppend, dict_get, h1, h2, ih]

/-- The grouping fold of `api_health` produces, per service id, exactly the
booleans of that service's rows in row order. -/
theorem dict_get_foldl (rows : List HealthCheckRecord) :
    ∀ (d : List (Nat × List Bool)) (sid : Nat),
      dict_get (rows.foldl
          (fun d r => dictAppend d r.service_id (decide (r.status = Status.up))) d) sid
        = dict_get d sid
            ++ (rows.filter (fun r => decide (r.service_id = sid))).map
                (fun r => decide (r.status = Status.up)) := by
  induction rows with
  | nil => intro d sid; simp
  | cons r rest ih =>
      intro d sid
      simp only [List.foldl_cons]
      rw [ih]
      by_cases h : r.service_id = sid
      · rw [h, dict_get_dictAppend_same]
        simp [List.filter_cons, h, List.append_assoc]
      · rw [dict_get_dictAppend_ne _ _ _ _ h]
        simp [List.filter_cons, h]

/-- Inserting a record no later than everything in the list prepends it. -/
theorem insertByTime_eq_cons (r : HealthCheckRecord) (l : List HealthCheckRecord)
    (h : ∀ y ∈ l, r.checked_at ≤ y.checked_at) : insertByTime r l = r :: l := by
  cases l with
  | nil => rfl
  | cons x xs =>
      rw [insertByTime, if_neg (Nat.not_lt.mpr (h x (List.mem_cons_self x xs)))]

/-- A list already sorted by timestamp is a fixed point of the sort. -/
theorem sortByTime_eq_self (l : List HealthCheckRecord)
    (h : List.Pairwise (fun a b => a.checked_at ≤ b.checked_at) l) : sortByTime l = l := by
  induction l with
  | nil => rfl
  | cons x xs ih =>
      rw [List.pairwise_cons] at h
      rw [sortByTime, ih h.2, insertByTime_eq_cons x xs h.1]

/-- The sparkline field of each entry produced by the loop is the dict
lookup for the service's id, independent of the store threaded through. -/
theorem api_health_loop_sparklines (env : ServiceRow → HttpResponse × DockerEnv)
    (catalog : List CatalogEntry) (sparklines : List (Nat × List Bool)) (now : Nat) :
    ∀ (svcs : List ServiceRow) (store : List HealthCheckRecord),
      ((api_health_loop env catalog sparklines now svcs store).1).map (fun e => e.sparkline)
        = svcs.map (fun s => dict_get sparklines s.id) := by
  intro svcs
  induction svcs with
  | nil => intro store; rfl
  | cons s rest ih =>
      intro store
      simp only [api_health_loop, List.map_cons, List.map]
      rw [ih]

/-- Claim C3, as stated, is false: with an empty history store the request
produces and persists an up verdict, yet the sparkline returned for the
service is empty — the window is read before the fresh verdict is written,
so the current verdict is not included. -/
theorem claim_C3_counterexample :
    ((api_health [wHttp] wEnvUp [] [] 1000000).1).map (fun e => e.sparkline) = [[]] ∧
    ((api_health [wHttp] wEnvUp [] [] 1000000).2).map (fun r => r.status) = [Status.up] :=
  ⟨rfl, rfl⟩

/-- Claim C3 (amended): on each health request the trailing window is read
from the history store before any fresh verdict is written, so the
sparklines in the response depend only on the pre-request store — they are
unchanged under any change of the probe outcomes of the current request and
in particular exclude the verdict the request itself produces. -/
theorem claim_C3 (services : List ServiceRow) (env1 env2 : ServiceRow → HttpResponse × DockerEnv)
    (catalog : List CatalogEntry) (store : List HealthCheckRecord) (now : Nat) :
    ((api_health services env1 catalog store now).1).map (fun e => e.sparkline)
      = ((api_health services env2 catalog store now).1).map (fun e => e.sparkline) := by
  simp only [api_health]
  rw [api_health_loop_sparklines, api_health_loop_sparklines]

/-- Claim C8: each enabled service's sparkline is exactly the booleans
(status = up) of that service's window records, in store (timestamp) order,
and the per-service window lists are chronologically sorted; a service with
no window records gets the empty sparkline. -/
theorem claim_C8 (services : List ServiceRow) (env : ServiceRow → HttpResponse × DockerEnv)
    (catalog : List CatalogEntry) (store : List HealthCheckRecord) (now : Nat)
    (hsorted : List.Pairwise (fun a b => a.checked_at ≤ b.checked_at) store) :
    ((api_health services env catalog store now).1).map (fun e => e.sparkline)
      = (services.filter (fun s => decide (s.enabled = 1))).map
          (fun s => (store.filter (fun r => decide (r.service_id = s.id)
              && decide (now ≤ r.checked_at + SPARKLINE_WINDOW_SECONDS))).map
            (fun r => decide (r.status = Status.up))) ∧
    ∀ s : ServiceRow, List.Pairwise (fun a b => a.checked_at ≤ b.checked_at)
      (store.filter (fun r => decide (r.service_id = s.id)
          && decide (now ≤ r.checked_at + SPARKLINE_WINDOW_SECONDS))) := by
  refine ⟨?_, fun s => hsorted.filter _⟩
  simp only [api_health]
  rw [api_health_loop_sparklines,
    sortByTime_eq_self _ (hsorted.filter _)]
  refine List.map_congr_left (fun s _hs => ?_)
  rw [dict_get_foldl]
  simp only [dict_get, List.nil_append]
  rw [List.filter_filter]

/-- Witness for C8: a store with an up, down, up history for service 3
yields the sparkline built from exactly those records. -/
theorem claim_C8_witness :
    List.Pairwise (fun a b => a.checked_at ≤ b.checked_at) w8Store ∧
    (((api_health [wHttp] wEnvUp [] w8Store 1000000).1).map (fun e => e.sparkline)
        = ([wHttp].filter (fun s => decide (s.enabled = 1))).map
            (fun s => (w8Store.filter (fun r => decide (r.service_id = s.id)
                && decide (1000000 ≤ r.checked_at + SPARKLINE_WINDOW_SECONDS))).map
              (fun r => decide (r.status = Status.up))) ∧
      ∀ s : ServiceRow, List.Pairwise (fun a b => a.checked_at ≤ b.checked_at)
        (w8Store.filter (fun r => decide (r.service_id = s.id)
            && decide (1000000 ≤ r.checked_at + SPARKLINE_WINDOW_SECONDS)))) :=
  ⟨by decide, claim_C8 [wHttp] wEnvUp [] w8Store 1000000 (by decide)⟩

/-! Seeding lemmas for `seed`. -/

/-- Unfolding `seed` when a row with the entry's name already exists. -/
theorem seed_cons_mem (rows : List ServiceRow) (e : CatalogEntry) (rest : List CatalogEntry)
    (h : ∃ r ∈ rows, r.name = e.name) : seed rows (e :: rest) = seed rows rest := by
  rw [seed, dif_pos h]

/-- Unfolding `seed` when no row with the entry's name exists. -/
theorem seed_cons_not_mem (rows : List ServiceRow) (e : CatalogEntry) (rest : List CatalogEntry)
    (h : ¬ ∃ r ∈ rows, r.name = e.name) :
    seed rows (e :: rest) = seed (rows ++ [rowOf e (rows.length + 1)]) rest := by
  rw [seed, dif_neg h]

/-- Seeding appends some rows after the existing ones: existing rows are
kept in place with every field unchanged, each appended row has a name that
was not present before, and each appended row's name comes from the catalog. -/
theorem seed_split (catalog : List CatalogEntry) :
    ∀ rows : List ServiceRow, ∃ added,
      seed rows catalog = rows ++ added ∧
      (∀ r ∈ added, ∀ r0 ∈ rows, r0.name ≠ r.name) ∧
      (∀ r ∈ added, ∃ e ∈ catalog, r.name = e.name) := by
  induction catalog with
  | nil =>
      intro rows
      exact ⟨[], by simp [seed], by simp, by simp⟩
  | cons e rest ih =>
      intro rows
      by_cases h : ∃ r ∈ rows, r.name = e.name
      · obtain ⟨added, h1, h2, h3⟩ := ih rows
        refine ⟨added, ?_, h2, ?_⟩
        · rw [seed_cons_mem rows e rest h]; exact h1
        · intro r hr
          obtain ⟨e', he', hn⟩ := h3 r hr
          exact ⟨e', List.mem_cons_of_mem _ he', hn⟩
      · obtain ⟨added, h1, h2, h3⟩ := ih (rows ++ [rowOf e (rows.length + 1)])
        refine ⟨rowOf e (rows.length + 1) :: added, ?_, ?_, ?_⟩
        · rw [seed_cons_not_mem rows e rest h, h1]; simp
        · intro r hr r0 hr0
          rcases List.mem_cons.mp hr with rfl | hr'
          · exact fun hname => h ⟨r0, hr0, hname⟩
          · exact h2 r hr' r0 (List.mem_append_left _ hr0)
        · intro r hr
          rcases List.mem_cons.mp hr with rfl | hr'
          · exact ⟨e, List.mem_cons_self e rest, rfl⟩
          · obtain ⟨e', he', hn⟩ := h3 r hr'
            exact ⟨e', List.mem_cons_of_mem _ he', hn⟩

/-- Every pre-existing row survives seeding unchanged. -/
theorem seed_subset (rows : List ServiceRow) (catalog : List CatalogEntry) :
    ∀ r ∈ rows, r ∈ seed rows catalog := by
  obtain ⟨added, h1, _, _⟩ := seed_split catalog rows
  intro r hr
  rw [h1]
  exact List.mem_append_left _ hr

/-- After seeding, every catalog name is present. -/
theorem seed_mem_name (catalog : List CatalogEntry) :
    ∀ (rows : List ServiceRow), ∀ e ∈ catalog, ∃ r ∈ seed rows catalog, r.name = e.name := by
  induction catalog with
  | nil => intro rows e he; exact absurd he (List.not_mem_nil e)
  | cons e0 rest ih =>
      intro rows e he
      by_cases h : ∃ r ∈ rows, r.name = e0.name
      · rw [seed_cons_mem rows e0 rest h]
        rcases List.mem_cons.mp he with rfl | he'
        · obtain ⟨r, hr, hn⟩ := h
          exact ⟨r, seed_subset rows rest r hr, hn⟩
        · exact ih rows e he'
      · rw [seed_cons_not_mem rows e0 rest h]
        rcases List.mem_cons.mp he with rfl | he'
        · refine ⟨rowOf e (rows.length + 1), ?_, rfl⟩
          exact seed_subset _ rest _ (List.mem_append_right _ (List.mem_singleton.mpr rfl))
        · exact ih _ e he'

/-- Seeding a store that already contains every catalog name is a no-op. -/
theorem seed_noop (catalog : List CatalogEntry) (rows : List ServiceRow)
    (h : ∀ e ∈ catalog, ∃ r ∈ rows, r.name = e.name) : seed rows catalog = rows := by
  induction catalog with
  | nil => rfl
  | cons e rest ih =>
      rw [seed_cons_mem rows e rest (h e (List.mem_cons_self e rest))]
      exact ih (fun e' he' => h e' (List.mem_cons_of_mem _ he'))

/-- Seeding preserves uniqueness of names. -/
theorem seed_names_nodup (catalog : List CatalogEntry) :
    ∀ rows : List ServiceRow, (rows.map (fun r => r.name)).Nodup →
      ((seed rows catalog).map (fun r => r.name)).Nodup := by
  induction catalog with
  | nil => intro rows h; exact h
  | cons e rest ih =>
      intro rows h
      by_cases hm : ∃ r ∈ rows, r.name = e.name
      · rw [seed_cons_mem rows e rest hm]
        exact ih rows h
      · rw [seed_cons_not_mem rows e rest hm]
        apply ih
        rw [List.map_append]
        refine List.Nodup.append h (by simp) ?_
        intro a ha hb
        obtain ⟨r, hr, rfl⟩ := List.mem_map.mp ha
        simp only [List.map_cons, List.map_nil, List.mem_singleton] at hb
        exact hm ⟨r, hr, hb⟩

/-- In a list with pairwise-distinct names, a present name is matched by
exactly one row. -/
theorem filter_name_length_one (l : List ServiceRow) (n : String)
    (hnodup : (l.map (fun r => r.name)).Nodup) (hmem : ∃ r ∈ l, r.name = n) :
    (l.filter (fun r => decide (r.name = n))).length = 1 := by
  induction l with
  | nil => obtain ⟨r, hr, _⟩ := hmem; exact absurd hr (List.not_mem_nil r)
  | cons x xs ih =>
      rw [List.map_cons, List.nodup_cons] at hnodup
      by_cases hx : x.name = n
      · rw [List.filter_cons, if_pos (by simpa using hx)]
        have hnil : xs.filter (fun r => decide (r.name = n)) = [] := by
          refine List.filter_eq_nil_iff.mpr (fun r hr => ?_)
          simp only [decide_eq_true_eq]
          intro hrn
          exact hnodup.1 (List.mem_map.mpr ⟨r, hr, hrn.trans hx.symm⟩)
        rw [hnil]
        rfl
      · rw [List.filter_cons, if_neg (by simpa using hx)]
        refine ih hnodup.2 ?_
        obtain ⟨r, hr, hn⟩ := hmem
        rcases List.mem_cons.mp hr with rfl | hr'
        · exact absurd hn hx
        · exact ⟨r, hr', hn⟩

/-- Claim C9: seeding inserts only catalog entries whose name is absent,
keeping existing rows in place with all fields unchanged; a second run is
the identity, and afterwards each catalog name is matched by exactly one
row (given the table's name-uniqueness invariant on the prior state). -/
theorem claim_C9 (rows : List ServiceRow) (catalog : List CatalogEntry)
    (hnodup : (rows.map (fun r => r.name)).Nodup) :
    seed (seed rows catalog) catalog = seed rows catalog ∧
    (∀ e ∈ catalog,
      ((seed (seed rows catalog) catalog).filter (fun r => decide (r.name = e.name))).length = 1) ∧
    (∃ added, seed rows catalog = rows ++ added ∧
      (∀ r ∈ added, ∀ r0 ∈ rows, r0.name ≠ r.name) ∧
      (∀ r ∈ added, ∃ e ∈ catalog, r.name = e.name)) := by
  have hidem : seed (seed rows catalog) catalog = seed rows catalog :=
    seed_noop catalog (seed rows catalog) (seed_mem_name catalog rows)
  refine ⟨hidem, ?_, seed_split catalog rows⟩
  intro e he
  rw [hidem]
  exact filter_name_length_one _ _ (seed_names_nodup catalog rows hnodup)
    (seed_mem_name catalog rows e he)

/-- Witness for C9: seeding the empty table with a two-entry catalog. -/
theorem claim_C9_witness :
    seed (seed [] w9Catalog) w9Catalog = seed [] w9Catalog ∧
    (∀ e ∈ w9Catalog,
      ((seed (seed [] w9Catalog) w9Catalog).filter (fun r => decide (r.name = e.name))).length = 1) ∧
    (∃ added, seed [] w9Catalog = [] ++ added ∧
      (∀ r ∈ added, ∀ r0 ∈ ([] : List ServiceRow), r0.name ≠ r.name) ∧
      (∀ r ∈ added, ∃ e ∈ w9Catalog, r.name = e.name)) :=
  claim_C9 [] w9Catalog (by decide)
